import Mathlib

/-!
Shallow embedding of `src/micrologger/core.py` (class `Logger`), a small
leveled logging utility with console and file sinks, size-triggered file
rotation, and a text/json persistence format switch.

Modelling conventions:
* The Python float `current_level` (an int rank, or `float("inf")` after
  `disable()`) is modelled by `PyLevel`: a finite `Int` rank or the
  infinity sentinel.
* The filesystem visible to the logger is two slots: the log file at
  `file_name` and the rotated file at `file_name + ".old"` (`FS.main`,
  `FS.old`); `none` means the file does not exist.
* File contents are modelled at the granularity the code observes through
  `ujson.load`: a serialized JSON array of record objects (`jsonArr`),
  content that parses as JSON but not as a list (`jsonOther`), or raw
  text lines that are not valid JSON (`text`) — e.g. the
  "Logger initialized." and "Log rotated." marker lines.
* I/O failures are nondeterministic in reality; each operation takes an
  oracle of booleans saying which of its I/O calls raises `OSError`.
* Python exceptions escaping to the caller are modelled by the
  `raised : Option String` field of each operation's result (the string
  is the exception class name); `none` means normal return.
* `print` output is collected as a `List String` of printed lines.
-/

namespace Micrologger

/-- One timestamp sample from `time.localtime()`: year, month, day, hour,
minute, second. -/
structure Tm where
  year : Nat
  month : Nat
  day : Nat
  hour : Nat
  minute : Nat
  second : Nat
deriving DecidableEq, Repr

/-- Zero-padded 2-digit field, Python `"{:02d}".format`. -/
def pad2 (n : Nat) : String :=
  if n < 10 then "0" ++ toString n else toString n

/-- Zero-padded 4-digit field, Python `"{:04d}".format`. -/
def pad4 (n : Nat) : String :=
  if n < 10 then "000" ++ toString n
  else if n < 100 then "00" ++ toString n
  else if n < 1000 then "0" ++ toString n
  else toString n

/-- `Logger._format_timestamp`: `YYYY-MM-DD HH:MM:SS` from `time.localtime()`. -/
def _format_timestamp (t : Tm) : String :=
  pad4 t.year ++ "-" ++ pad2 t.month ++ "-" ++ pad2 t.day ++ " " ++
  pad2 t.hour ++ ":" ++ pad2 t.minute ++ ":" ++ pad2 t.second

/-- The class attribute `Logger.LEVELS`: name → integer rank. -/
def LEVELS : String → Option Int
  | "DEBUG" => some 0
  | "INFO" => some 1
  | "WARNING" => some 2
  | "ERROR" => some 3
  | "CRITICAL" => some 4
  | "TRACE" => some (-1)
  | _ => none

/-- The class attribute `Logger.COLORS`: name → ANSI escape string. -/
def COLORS : String → Option String
  | "DEBUG" => some "\x1b[94m"
  | "INFO" => some "\x1b[92m"
  | "WARNING" => some "\x1b[93m"
  | "ERROR" => some "\x1b[91m"
  | "CRITICAL" => some "\x1b[41m"
  | "TRACE" => some "\x1b[37m"
  | "RESET" => some "\x1b[0m"
  | _ => none

/-- Python `str.upper()`: per-character uppercasing (ASCII suffices for
the level names the lookup distinguishes). -/
def pyUpper (s : String) : String :=
  ⟨s.data.map Char.toUpper⟩

/-- `self.LEVELS.get(level.upper(), 1)`. -/
def LEVELS_get (level : String) : Int :=
  (LEVELS (pyUpper level)).getD 1

/-- The Python value held in `self.current_level`: an integer rank, or
`float("inf")` after `disable()`. -/
inductive PyLevel where
  | fin (rank : Int)
  | inf
deriving DecidableEq, Repr

/-- Python `x >= y` where `x` is a finite rank and `y` is `current_level`
(possibly `float("inf")`, which compares above every finite number). -/
def geLevel (rank : Int) : PyLevel → Bool
  | .fin m => decide (m ≤ rank)
  | .inf => false

/-- Python `x < y` on `PyLevel` values (float semantics with `inf`). -/
def ltLevel : PyLevel → PyLevel → Bool
  | .fin a, .fin b => decide (a < b)
  | .fin _, .inf => true
  | .inf, _ => false

/-- One persisted log record, the dict built in `Logger._log`
(`timestamp`, `level`, `message`, and a `color` key exactly when
`use_colors` holds and the level is in `COLORS`). -/
structure LogRec where
  timestamp : String
  level : String
  message : String
  color : Option String
deriving DecidableEq, Repr

/-- JSON string literal with the escapes `ujson.dump` applies to the
characters these records can contain. -/
def jsonEscapeChar (c : Char) : String :=
  if c = '"' then "\\\""
  else if c = '\\' then "\\\\"
  else if c = '\n' then "\\n"
  else String.singleton c

/-- Serialized JSON string. -/
def jsonStr (s : String) : String :=
  "\"" ++ String.join (s.data.map jsonEscapeChar) ++ "\""

/-- Serialized record object as `ujson.dump` writes it. -/
def serializeRec (r : LogRec) : String :=
  "\x7b\"timestamp\": " ++ jsonStr r.timestamp ++
  ", \"level\": " ++ jsonStr r.level ++
  ", \"message\": " ++ jsonStr r.message ++
  (match r.color with
   | some c => ", \"color\": " ++ jsonStr c
   | none => "") ++ "\x7d"

/-- Serialized JSON array of records. -/
def serializeArr (rs : List LogRec) : String :=
  "[" ++ String.intercalate ", " (rs.map serializeRec) ++ "]"

/-- Content of one file, at the granularity `ujson.load` distinguishes. -/
inductive FileContent where
  /-- A serialized JSON array of record objects, as the logger writes it. -/
  | jsonArr (recs : List LogRec)
  /-- Content that parses as valid JSON but not as a list
  (e.g. an object or a scalar written externally). -/
  | jsonOther (raw : String)
  /-- Raw text lines (each terminated by a newline) that are not valid
  JSON: the "Logger initialized." / "Log rotated." markers, or corrupt
  external content. -/
  | text (lines : List String)
deriving DecidableEq, Repr

/-- Byte/char size of a file's content, what `f.seek(0, 2); f.tell()`
measures in `_rotate_file`. -/
def contentSize : FileContent → Nat
  | .jsonArr rs => (serializeArr rs).length
  | .jsonOther raw => raw.length
  | .text lines => (String.join (lines.map (fun l => l ++ "\n"))).length

/-- Result of `ujson.load` on a file's content. -/
inductive ParseResult where
  /-- Parsed as a Python list (of the record objects it holds). -/
  | list (recs : List LogRec)
  /-- Parsed as valid JSON that is not a list. -/
  | notList
  /-- Raised `ValueError`: content is not valid JSON. -/
  | valueError
deriving DecidableEq, Repr

/-- `ujson.load` on our file contents. -/
def ujsonLoad : FileContent → ParseResult
  | .jsonArr recs => .list recs
  | .jsonOther _ => .notList
  | .text _ => .valueError

/-- The two files the logger ever touches: `file_name` and
`file_name + ".old"`. `none` = the file does not exist. -/
structure FS where
  main : Option FileContent
  old : Option FileContent
deriving DecidableEq, Repr

/-- The instance state set in `Logger.__init__` (field names follow the
source). -/
structure Logger where
  current_level : PyLevel
  log_to_console : Bool
  log_to_file : Bool
  file_name : String
  max_file_size : Int
  use_colors : Bool
  log_format : String
deriving DecidableEq, Repr

/-- Which I/O calls of one emit raise `OSError`: the size measurement,
the rename, the recreate after rename (all inside `_rotate_file`), the
read of the log file, the rewrite of the updated array, and the rewrite
inside the `ValueError` recovery handler (all inside `_log`). -/
structure EmitOracle where
  statFail : Bool
  renameFail : Bool
  createFail : Bool
  readFail : Bool
  writeFail : Bool
  recoveryWriteFail : Bool
deriving DecidableEq, Repr

/-- The all-I/O-succeeds oracle. -/
def okOracle : EmitOracle :=
  ⟨false, false, false, false, false, false⟩

/-- `Logger._rotate_file`. Everything is wrapped in
`try: ... except OSError: pass`, so an I/O failure keeps whatever partial
effect already happened and returns normally; the function cannot raise. -/
def _rotate_file (lg : Logger) (o : EmitOracle) (fs : FS) : FS :=
  if lg.max_file_size > 0 then
    match fs.main with
    | none => fs
    | some c =>
      if o.statFail then fs
      else if (contentSize c : Int) > lg.max_file_size then
        if o.renameFail then fs
        else
          let fs1 : FS := { main := none, old := some c }
          if o.createFail then fs1
          else
            { fs1 with
              main := some (if lg.log_format == "json"
                            then .jsonArr []
                            else .text ["Log rotated."]) }
      else fs
  else fs

/-- The console notice printed by `except OSError as e` in `_log`
(`"Error writing to log file: ..."`). -/
def writeErrNotice : String := "Error writing to log file"

/-- The console notice printed by `except OSError as e` in `__init__`
(`"Error initializing log file: ..."`). -/
def initErrNotice : String := "Error initializing log file"

/-- The `if self.log_to_file:` tail of `Logger._log` after the rotation
call: read the file as JSON, append the record, rewrite the whole array;
`OSError` on read/write is caught and printed, `ValueError` (invalid
JSON) rewrites a fresh single-record array. Returns the new filesystem,
the printed lines, and the escaping exception if any (the recovery write
and a `.append` on a non-list are outside the handlers). -/
def _file_append (o : EmitOracle) (fs : FS) (entry : LogRec) :
    FS × List String × Option String :=
  match fs.main with
  | none => (fs, [writeErrNotice], none)
  | some c =>
    if o.readFail then (fs, [writeErrNotice], none)
    else
      match ujsonLoad c with
      | .list recs =>
        if o.writeFail then (fs, [writeErrNotice], none)
        else ({ fs with main := some (.jsonArr (recs ++ [entry])) }, [], none)
      | .notList => (fs, [], some "AttributeError")
      | .valueError =>
        if o.recoveryWriteFail then (fs, [], some "OSError")
        else ({ fs with main := some (.jsonArr [entry]) }, [], none)

/-- The console line rendered in `_log`: `[timestamp][LEVEL] message`,
wrapped in the level's color escape and the reset escape when
`use_colors` holds and the level is in `COLORS`. -/
def consoleLine (lg : Logger) (timestamp level message : String) : String :=
  let m := "[" ++ timestamp ++ "][" ++ level ++ "] " ++ message
  if lg.use_colors then
    match COLORS level with
    | some c => c ++ m ++ "\x1b[0m"
    | none => m
  else m

/-- Result of one `_log` call. -/
structure LogResult where
  fs : FS
  console : List String
  raised : Option String
deriving DecidableEq, Repr

/-- `Logger._log`: threshold check on `self.LEVELS[level]` (a `KeyError`
on an unknown name would escape, but the six public entry points only
pass known names), record construction, console sink, then rotation and
the file sink. -/
def _log (lg : Logger) (o : EmitOracle) (t : Tm) (fs : FS)
    (level message : String) : LogResult :=
  match LEVELS level with
  | none => ⟨fs, [], some "KeyError"⟩
  | some rank =>
    if geLevel rank lg.current_level then
      let timestamp := _format_timestamp t
      let entry : LogRec :=
        { timestamp := timestamp, level := level, message := message,
          color := if lg.use_colors then COLORS level else none }
      let console0 : List String :=
        if lg.log_to_console then [consoleLine lg timestamp level message]
        else []
      if lg.log_to_file then
        let fs1 := _rotate_file lg o fs
        let r := _file_append o fs1 entry
        ⟨r.1, console0 ++ r.2.1, r.2.2⟩
      else ⟨fs, console0, none⟩
    else ⟨fs, [], none⟩

/-- Result of constructing a `Logger`. When `raised` is not `none` the
Python constructor propagated an exception (no object reaches the
caller); the `logger` component then records the fields that had been
assigned before the raise. -/
structure InitResult where
  logger : Logger
  fs : FS
  console : List String
  raised : Option String
deriving DecidableEq, Repr

/-- `Logger.__init__`: assign the configuration, then if the file sink is
enabled create/truncate the log file — an empty JSON array for
`log_format == "json"` (with `OSError` caught and printed), or the
`"Logger initialized."` line for any other format (no handler: an
`OSError` escapes). `initFail` says whether that open/write raises. -/
def loggerInit (level : String) (log_to_console log_to_file : Bool)
    (file_name : String) (max_file_size : Int) (use_colors : Bool)
    (log_format : String) (initFail : Bool) (fs : FS) : InitResult :=
  let lg : Logger :=
    { current_level := .fin (LEVELS_get level),
      log_to_console := log_to_console,
      log_to_file := log_to_file,
      file_name := file_name,
      max_file_size := max_file_size,
      use_colors := use_colors,
      log_format := log_format }
  if log_to_file then
    if log_format == "json" then
      if initFail then ⟨lg, fs, [initErrNotice], none⟩
      else ⟨lg, { fs with main := some (.jsonArr []) }, [], none⟩
    else
      if initFail then ⟨lg, fs, [], some "OSError"⟩
      else ⟨lg, { fs with main := some (.text ["Logger initialized."]) }, [], none⟩
  else ⟨lg, fs, [], none⟩

/-- `Logger.set_level`. -/
def set_level (lg : Logger) (level : String) : Logger :=
  { lg with current_level := .fin (LEVELS_get level) }

/-- `Logger.disable`: `self.current_level = float("inf")`. -/
def disable (lg : Logger) : Logger :=
  { lg with current_level := .inf }

/-- `Logger.debug`. -/
def debug (lg : Logger) (o : EmitOracle) (t : Tm) (fs : FS) (message : String) : LogResult :=
  _log lg o t fs "DEBUG" message

/-- `Logger.info`. -/
def info (lg : Logger) (o : EmitOracle) (t : Tm) (fs : FS) (message : String) : LogResult :=
  _log lg o t fs "INFO" message

/-- `Logger.warning`. -/
def warning (lg : Logger) (o : EmitOracle) (t : Tm) (fs : FS) (message : String) : LogResult :=
  _log lg o t fs "WARNING" message

/-- `Logger.error`. -/
def error (lg : Logger) (o : EmitOracle) (t : Tm) (fs : FS) (message : String) : LogResult :=
  _log lg o t fs "ERROR" message

/-- `Logger.critical`. -/
def critical (lg : Logger) (o : EmitOracle) (t : Tm) (fs : FS) (message : String) : LogResult :=
  _log lg o t fs "CRITICAL" message

/-- `Logger.trace`. -/
def trace (lg : Logger) (o : EmitOracle) (t : Tm) (fs : FS) (message : String) : LogResult :=
  _log lg o t fs "TRACE" message

/-- The record `_log` builds for one call `(time, level, message)`. -/
def mkEntry (lg : Logger) (c : Tm × String × String) : LogRec :=
  { timestamp := _format_timestamp c.1, level := c.2.1, message := c.2.2,
    color := if lg.use_colors then COLORS c.2.1 else none }

/-- Filesystem after one `_log` call with all I/O succeeding. -/
def emitStep (lg : Logger) (fs : FS) (c : Tm × String × String) : FS :=
  (_log lg okOracle c.1 fs c.2.1 c.2.2).fs

/-- Filesystem after a sequence of `_log` calls with all I/O succeeding. -/
def runEmits (lg : Logger) (fs : FS) : List (Tm × String × String) → FS
  | [] => fs
  | c :: cs => runEmits lg (emitStep lg fs c) cs

/-- Whether the rotation size check fires on this state (with the size
measurement succeeding): a positive `max_file_size` and a current file
strictly larger than it. -/
def rotTriggers (lg : Logger) (fs : FS) : Bool :=
  decide (0 < lg.max_file_size) &&
    (match fs.main with
     | some c => decide (lg.max_file_size < (contentSize c : Int))
     | none => false)

/-- Rotation never fires along a sequence of all-I/O-succeeding `_log`
calls from this state. -/
def noRotTrigger (lg : Logger) (fs : FS) : List (Tm × String × String) → Bool
  | [] => true
  | c :: cs => !rotTriggers lg fs && noRotTrigger lg (emitStep lg fs c) cs

/-- The call's level name is known and its rank passes the logger's
current threshold. -/
def aboveThreshold (lg : Logger) (c : Tm × String × String) : Bool :=
  match LEVELS c.2.1 with
  | some rank => geLevel rank lg.current_level
  | none => false

/-- Fixture: one timestamp. -/
def t0 : Tm := ⟨2026, 1, 2, 3, 4, 5⟩

/-- Fixture: the file holds an empty JSON array (fresh json-mode init). -/
def fsEmptyArr : FS := ⟨some (.jsonArr []), none⟩

/-- Fixture: the file holds content that is not valid JSON. -/
def fsCorrupt : FS := ⟨some (.text ["oops"]), none⟩

/-- Fixture: the file holds 11 bytes of non-JSON content. -/
def fsBig : FS := ⟨some (.text ["0123456789"]), none⟩

/-- Fixture: json-mode logger, file sink only, threshold INFO. -/
def lgJson : Logger :=
  ⟨.fin 1, false, true, "log.txt", 0, true, "json"⟩

/-- Fixture: text-mode logger, file sink only, threshold INFO. -/
def lgText : Logger :=
  ⟨.fin 1, false, true, "log.txt", 0, true, "text"⟩

/-- Fixture: console-only logger, threshold INFO. -/
def lgConsole : Logger :=
  ⟨.fin 1, true, false, "log.txt", 0, true, "json"⟩

/-- Fixture: json-mode logger with rotation threshold 5 bytes. -/
def lgRot : Logger :=
  ⟨.fin 1, false, true, "log.txt", 5, true, "json"⟩

/-- Fixture: oracle where only the corrupt-recovery rewrite fails. -/
def oRecFail : EmitOracle := { okOracle with recoveryWriteFail := true }


/-- The six level names are the only ones `LEVELS` knows. -/
theorem levels_cases {level : String} {rank : Int} (h : LEVELS level = some rank) :
    level = "DEBUG" ∨ level = "INFO" ∨ level = "WARNING" ∨ level = "ERROR" ∨
    level = "CRITICAL" ∨ level = "TRACE" := by
  unfold LEVELS at h
  split at h <;> simp_all

/-- Appending strings concatenates their character data. -/
theorem data_append (a b : String) : (a ++ b).data = a.data ++ b.data := by
  cases a; cases b; rfl

/-- Strings with different first characters differ. -/
theorem ne_of_head {a b : String} (h : a.data.head? ≠ b.data.head?) : a ≠ b :=
  fun e => h (by rw [e])

/-- A rendered console log line starts with `[` or an ANSI escape. -/
theorem consoleLine_head (lg : Logger) (ts level message : String) {rank : Int}
    (h : LEVELS level = some rank) :
    (consoleLine lg ts level message).data.head? = some '[' ∨
    (consoleLine lg ts level message).data.head? = some '\x1b' := by
  rcases levels_cases h with h' | h' | h' | h' | h' | h' <;> subst h' <;>
    unfold consoleLine <;> cases lg.use_colors <;>
    simp [COLORS, data_append]

/-- A rendered console log line is never the file-write error notice. -/
theorem consoleLine_ne_notice (lg : Logger) (ts level message : String) {rank : Int}
    (h : LEVELS level = some rank) :
    consoleLine lg ts level message ≠ writeErrNotice := by
  apply ne_of_head
  rcases consoleLine_head lg ts level message h with h' | h' <;>
    rw [h'] <;> simp [writeErrNotice]

/-- When the size check does not fire, `_rotate_file` is the identity,
for every oracle. -/
theorem rotate_noop (lg : Logger) (o : EmitOracle) (fs : FS)
    (h : rotTriggers lg fs = false) : _rotate_file lg o fs = fs := by
  unfold _rotate_file
  by_cases hpos : lg.max_file_size > 0
  · rcases hm : fs.main with _ | c
    · simp
    · have hsz : ¬ ((contentSize c : Int) > lg.max_file_size) := by
        unfold rotTriggers at h
        rw [hm] at h
        simp [hpos] at h
        omega
      simp [hpos, hsz]
  · simp [hpos]

/-- The printed lines of the file-append step are empty or the single
write-error notice. -/
theorem file_append_console (o : EmitOracle) (fs : FS) (entry : LogRec) :
    (_file_append o fs entry).2.1 = [] ∨
    (_file_append o fs entry).2.1 = [writeErrNotice] := by
  unfold _file_append
  rcases fs.main with _ | c
  · simp
  · rcases c <;> simp [ujsonLoad] <;> split_ifs <;> simp



/-- C8: `disable()` sets the active minimum level to the infinity
sentinel, strictly greater than every finite severity rank, and changes
no other configuration field; afterwards every `_log` call at every known
level is a complete no-op (no console output, no file mutation, no
exception), and `set_level` restores a finite minimum. -/
theorem C8_disable_sentinel (lg : Logger) :
    (disable lg).current_level = PyLevel.inf ∧
    (∀ r : Int, ltLevel (.fin r) (disable lg).current_level = true) ∧
    (disable lg).log_to_console = lg.log_to_console ∧
    (disable lg).log_to_file = lg.log_to_file ∧
    (disable lg).file_name = lg.file_name ∧
    (disable lg).max_file_size = lg.max_file_size ∧
    (disable lg).use_colors = lg.use_colors ∧
    (disable lg).log_format = lg.log_format ∧
    (∀ level rank, LEVELS level = some rank →
      ∀ (o : EmitOracle) (t : Tm) (fs : FS) (message : String),
        _log (disable lg) o t fs level message = ⟨fs, [], none⟩) ∧
    (∀ name : String, ∃ k : Int,
      (set_level (disable lg) name).current_level = .fin k) := by
  refine ⟨rfl, fun r => rfl, rfl, rfl, rfl, rfl, rfl, rfl, ?_,
          fun name => ⟨LEVELS_get name, rfl⟩⟩
  intro level rank hl o t fs message
  simp [_log, hl, disable, geLevel]

/-- Witness for C8 at a concrete logger, CRITICAL level. -/
theorem C8_disable_sentinel_witness :
    _log (disable lgConsole) okOracle t0 fsEmptyArr "CRITICAL" "x" =
      ⟨fsEmptyArr, [], none⟩ :=
  (C8_disable_sentinel lgConsole).2.2.2.2.2.2.2.2.1 "CRITICAL" 4 rfl
    okOracle t0 fsEmptyArr "x"

/-- C4: rotation policy. With `max_file_size ≤ 0` rotation is the
identity; when the size check fires with the measurement and rename
succeeding, the old file is overwritten with the current content and a
fresh file is created at the original path (an empty JSON array for
json, the "Log rotated." line otherwise) unless the recreate fails; and
an above-threshold `_log` with the file sink enabled always applies the
record append to the already-rotated state, for every oracle (rotation
failures are swallowed and the emit proceeds). -/
theorem C4_rotation_policy (lg : Logger) (o : EmitOracle) (fs : FS) :
    (lg.max_file_size ≤ 0 → _rotate_file lg o fs = fs) ∧
    (∀ c, fs.main = some c → 0 < lg.max_file_size → o.statFail = false →
      lg.max_file_size < (contentSize c : Int) → o.renameFail = false →
      (_rotate_file lg o fs).old = some c ∧
      (_rotate_file lg o fs).main =
        (if o.createFail then none
         else some (if lg.log_format == "json" then FileContent.jsonArr []
                    else FileContent.text ["Log rotated."]))) ∧
    (∀ (t : Tm) (level message : String) (rank : Int),
      LEVELS level = some rank →
      geLevel rank lg.current_level = true → lg.log_to_file = true →
      _log lg o t fs level message =
        ⟨(_file_append o (_rotate_file lg o fs)
            ⟨_format_timestamp t, level, message,
             if lg.use_colors then COLORS level else none⟩).1,
         (if lg.log_to_console then
            [consoleLine lg (_format_timestamp t) level message] else []) ++
           (_file_append o (_rotate_file lg o fs)
            ⟨_format_timestamp t, level, message,
             if lg.use_colors then COLORS level else none⟩).2.1,
         (_file_append o (_rotate_file lg o fs)
            ⟨_format_timestamp t, level, message,
             if lg.use_colors then COLORS level else none⟩).2.2⟩) := by
  refine ⟨?_, ?_, ?_⟩
  · intro h
    unfold _rotate_file
    simp [show ¬ lg.max_file_size > 0 by omega]
  · intro c hm hpos hstat hsz hren
    unfold _rotate_file
    simp [hm, hpos, hstat, hsz, hren]
    cases hc : o.createFail <;> simp [hc]
  · intro t level message rank hl hge hfile
    simp [_log, hl, hge, hfile]

/-- Witness for C4: a triggering rotation at a concrete state. -/
theorem C4_rotation_policy_witness :
    (_rotate_file lgRot okOracle fsBig).old = some (.text ["0123456789"]) ∧
    (_rotate_file lgRot okOracle fsBig).main = some (.jsonArr []) := by
  have h := (C4_rotation_policy lgRot okOracle fsBig).2.1
    (.text ["0123456789"]) rfl (by decide) rfl (by decide) rfl
  exact ⟨h.1, h.2.trans (by decide)⟩

/-- C5: corrupt-content recovery. When the content the emit reads (after
the rotation check) is not valid JSON and the recovery write succeeds,
the emit raises nothing and leaves the file holding a single-element
JSON array with only the new record. -/
theorem C5_corrupt_recovery (lg : Logger) (o : EmitOracle) (t : Tm) (fs : FS)
    (level message : String) (rank : Int) (lines : List String)
    (hl : LEVELS level = some rank)
    (hge : geLevel rank lg.current_level = true)
    (hfile : lg.log_to_file = true)
    (hmain : (_rotate_file lg o fs).main = some (.text lines))
    (hread : o.readFail = false)
    (hrw : o.recoveryWriteFail = false) :
    (_log lg o t fs level message).raised = none ∧
    (_log lg o t fs level message).fs.main =
      some (.jsonArr [⟨_format_timestamp t, level, message,
                       if lg.use_colors then COLORS level else none⟩]) := by
  simp [_log, hl, hge, hfile, _file_append, hmain, hread, ujsonLoad, hrw]

/-- Witness for C5: recovery from a concrete corrupt file. -/
theorem C5_corrupt_recovery_witness :
    (_log lgJson okOracle t0 fsCorrupt "INFO" "x").raised = none ∧
    (_log lgJson okOracle t0 fsCorrupt "INFO" "x").fs.main =
      some (.jsonArr [⟨"2026-01-02 03:04:05", "INFO", "x", some "\x1b[92m"⟩]) := by
  have h := C5_corrupt_recovery lgJson okOracle t0 fsCorrupt "INFO" "x" 1
    ["oops"] rfl (by decide) rfl (by decide) rfl rfl
  exact ⟨h.1, h.2.trans (by decide)⟩



/-- The rendered console line equals the spec's shape:
`[timestamp][LEVEL] message`, wrapped in the level's color escape and
the reset escape exactly when colors are enabled and the level has an
assigned color. -/
theorem consoleLine_shape (lg : Logger) (ts level message : String) {rank : Int}
    (h : LEVELS level = some rank) :
    consoleLine lg ts level message =
      (if lg.use_colors = true ∧ (COLORS level).isSome = true
       then ((COLORS level).getD "") ++
            ("[" ++ ts ++ "][" ++ level ++ "] " ++ message) ++ "\x1b[0m"
       else "[" ++ ts ++ "][" ++ level ++ "] " ++ message) := by
  rcases levels_cases h with h' | h' | h' | h' | h' | h' <;> subst h' <;>
    unfold consoleLine <;> cases hc : lg.use_colors <;> simp [COLORS, hc]

/-- The console output of one `_log` call: the rendered line exactly when
the console sink is on and the threshold passes, followed possibly by
the file-write error notice. -/
theorem log_console_form (lg : Logger) (o : EmitOracle) (t : Tm) (fs : FS)
    (level message : String) {rank : Int} (hl : LEVELS level = some rank) :
    ∃ rest, ((_log lg o t fs level message).console =
      (if lg.log_to_console = true ∧ geLevel rank lg.current_level = true
       then [consoleLine lg (_format_timestamp t) level message]
       else []) ++ rest) ∧
      (rest = [] ∨ rest = [writeErrNotice]) := by
  cases hge : geLevel rank lg.current_level
  · exact ⟨[], by simp [_log, hl, hge], Or.inl rfl⟩
  · cases hf : lg.log_to_file
    · refine ⟨[], ?_, Or.inl rfl⟩
      cases hc : lg.log_to_console <;> simp [_log, hl, hge, hf, hc]
    · refine ⟨(_file_append o (_rotate_file lg o fs)
        ⟨_format_timestamp t, level, message,
         if lg.use_colors then COLORS level else none⟩).2.1, ?_,
        file_append_console _ _ _⟩
      cases hc : lg.log_to_console <;> simp [_log, hl, hge, hf, hc]

/-- C1: for each of the six levels, the rendered console log line appears
in the emit's console output iff the console sink is enabled and the
level's rank passes the current minimum; when it appears it is
`[timestamp][LEVEL] message` wrapped in the level's ANSI color escape and
the reset escape exactly when colors are enabled and the level has an
assigned color; and below the threshold the call is a complete no-op (no
console output, no file mutation, no record, no exception). -/
theorem C1_console_contract (lg : Logger) (o : EmitOracle) (t : Tm) (fs : FS)
    (level message : String) (rank : Int) (hl : LEVELS level = some rank) :
    (consoleLine lg (_format_timestamp t) level message ∈
        (_log lg o t fs level message).console ↔
      lg.log_to_console = true ∧ geLevel rank lg.current_level = true) ∧
    (lg.log_to_console = true → geLevel rank lg.current_level = true →
      ∃ rest, (_log lg o t fs level message).console =
        (if lg.use_colors = true ∧ (COLORS level).isSome = true
         then ((COLORS level).getD "") ++
              ("[" ++ _format_timestamp t ++ "][" ++ level ++ "] " ++ message) ++
              "\x1b[0m"
         else "[" ++ _format_timestamp t ++ "][" ++ level ++ "] " ++ message)
          :: rest) ∧
    (geLevel rank lg.current_level = false →
      _log lg o t fs level message = ⟨fs, [], none⟩) := by
  obtain ⟨rest, hform, hrest⟩ := log_console_form lg o t fs level message hl
  refine ⟨?_, ?_, ?_⟩
  · rw [hform]
    by_cases hcond : lg.log_to_console = true ∧ geLevel rank lg.current_level = true
    · simp [hcond]
    · simp only [if_neg hcond, List.nil_append]
      constructor
      · intro hmem
        rcases hrest with h | h <;> subst h <;>
          simp [consoleLine_ne_notice lg (_format_timestamp t) level message hl] at hmem
      · intro h; exact absurd h hcond
  · intro hc hge
    refine ⟨rest, ?_⟩
    rw [hform, ← consoleLine_shape lg (_format_timestamp t) level message hl]
    simp [hc, hge]
  · intro hge
    simp [_log, hl, hge]

/-- Witness for C1: below-threshold DEBUG is a no-op and above-threshold
ERROR puts the rendered line on the console. -/
theorem C1_console_contract_witness :
    (_log lgConsole okOracle t0 fsEmptyArr "DEBUG" "x" =
      ⟨fsEmptyArr, [], none⟩) ∧
    consoleLine lgConsole (_format_timestamp t0) "ERROR" "boom" ∈
      (_log lgConsole okOracle t0 fsEmptyArr "ERROR" "boom").console :=
  ⟨(C1_console_contract lgConsole okOracle t0 fsEmptyArr "DEBUG" "x" 0
      rfl).2.2 (by decide),
   ((C1_console_contract lgConsole okOracle t0 fsEmptyArr "ERROR" "boom" 3
      rfl).1).mpr ⟨rfl, by decide⟩⟩



/-- One all-I/O-succeeding, above-threshold emit on a JSON-array file with
the size check not firing appends exactly the call's record. -/
theorem emitStep_json (lg : Logger) (recs : List LogRec)
    (old : Option FileContent) (c : Tm × String × String)
    (hfile : lg.log_to_file = true)
    (hab : aboveThreshold lg c = true)
    (hrot : rotTriggers lg ⟨some (.jsonArr recs), old⟩ = false) :
    emitStep lg ⟨some (.jsonArr recs), old⟩ c =
      ⟨some (.jsonArr (recs ++ [mkEntry lg c])), old⟩ := by
  unfold aboveThreshold at hab
  rcases hl : LEVELS c.2.1 with _ | rank <;> rw [hl] at hab
  · cases hab
  · simp only at hab
    unfold emitStep
    rw [_log]
    simp only [hl]
    rw [rotate_noop lg okOracle _ hrot]
    simp [hab, hfile, _file_append, ujsonLoad, okOracle, mkEntry]

/-- Running above-threshold calls over a JSON-array file with rotation
never firing appends the calls' records in order. -/
theorem runEmits_json (lg : Logger) (hfile : lg.log_to_file = true) :
    ∀ (calls : List (Tm × String × String)) (recs : List LogRec)
      (old : Option FileContent),
      calls.all (aboveThreshold lg) = true →
      noRotTrigger lg ⟨some (.jsonArr recs), old⟩ calls = true →
      runEmits lg ⟨some (.jsonArr recs), old⟩ calls =
        ⟨some (.jsonArr (recs ++ calls.map (mkEntry lg))), old⟩
  | [], recs, old, _, _ => by simp [runEmits]
  | c :: cs, recs, old, hab, hrot => by
    rw [List.all_cons, Bool.and_eq_true] at hab
    rw [noRotTrigger, Bool.and_eq_true, Bool.not_eq_true'] at hrot
    have hstep := emitStep_json lg recs old c hfile hab.1 hrot.1
    have hrot2 := hrot.2
    rw [hstep] at hrot2
    rw [runEmits, hstep,
        runEmits_json lg hfile cs (recs ++ [mkEntry lg c]) old hab.2 hrot2]
    simp

/-- C2: JSON round-trip. In json mode with the file sink enabled, after a
sequence of all-I/O-succeeding emits that all pass the threshold, with
rotation never firing, starting from a freshly initialized file (an empty
JSON array), the file holds exactly the calls' records, in call order,
each record's `level` and `message` equal to the call's. -/
theorem C2_json_roundtrip (lg : Logger) (old : Option FileContent)
    (calls : List (Tm × String × String))
    (_hfmt : lg.log_format = "json") (hfile : lg.log_to_file = true)
    (hab : calls.all (aboveThreshold lg) = true)
    (hrot : noRotTrigger lg ⟨some (.jsonArr []), old⟩ calls = true) :
    runEmits lg ⟨some (.jsonArr []), old⟩ calls =
      ⟨some (.jsonArr (calls.map (mkEntry lg))), old⟩ ∧
    (calls.map (mkEntry lg)).length = calls.length ∧
    ∀ c ∈ calls, (mkEntry lg c).level = c.2.1 ∧
      (mkEntry lg c).message = c.2.2 := by
  refine ⟨?_, by simp, fun c _ => ⟨rfl, rfl⟩⟩
  have h := runEmits_json lg hfile calls [] old hab hrot
  simpa using h

/-- Witness for C2: two concrete emits produce a two-record array. -/
theorem C2_json_roundtrip_witness :
    runEmits lgJson ⟨some (.jsonArr []), none⟩
        [(t0, "INFO", "a"), (t0, "ERROR", "b")] =
      ⟨some (.jsonArr [mkEntry lgJson (t0, "INFO", "a"),
                       mkEntry lgJson (t0, "ERROR", "b")]), none⟩ :=
  (C2_json_roundtrip lgJson none [(t0, "INFO", "a"), (t0, "ERROR", "b")]
    rfl rfl (by decide) (by decide)).1



/-- `_rotate_file` in json mode leaves the file unchanged, deletes it
(rename done, recreate failed), or recreates it as an empty array. -/
theorem rotate_main_cases (lg : Logger) (o : EmitOracle) (fs : FS)
    (hfmt : lg.log_format = "json") :
    (_rotate_file lg o fs).main = fs.main ∨
    (_rotate_file lg o fs).main = none ∨
    (_rotate_file lg o fs).main = some (.jsonArr []) := by
  unfold _rotate_file
  by_cases h1 : lg.max_file_size > 0
  · rcases hm : fs.main with _ | c
    · simp [h1, hm]
    · rw [if_pos h1]
      by_cases h2 : o.statFail = true
      · simp [h2, hm]
      · by_cases h3 : (contentSize c : Int) > lg.max_file_size
        · by_cases h4 : o.renameFail = true
          · simp [h2, h3, h4, hm]
          · by_cases h5 : o.createFail = true
            · simp [h2, h3, h4, h5]
            · simp [h2, h3, h4, h5, hfmt]
        · simp [h2, h3, hm]
  · simp [h1]

/-- The file-append step leaves the file unchanged or writes a JSON
array. -/
theorem append_main_cases (o : EmitOracle) (fs : FS) (entry : LogRec) :
    (_file_append o fs entry).1.main = fs.main ∨
    ∃ recs, (_file_append o fs entry).1.main = some (.jsonArr recs) := by
  unfold _file_append
  rcases hm : fs.main with _ | c
  · simp [hm]
  · rcases c <;> simp only [ujsonLoad] <;> split_ifs <;> simp [hm]

/-- C9: json-array invariant. In json mode, whenever construction,
rotation, or an emit changes the log file at all, what it wrote (if the
file still exists) is a JSON array — never an object or a scalar; a
changed-but-missing file only arises when rotation renamed the file away
and the recreate write failed, i.e. when no write completed. -/
theorem C9_json_array_invariant (lg : Logger) (hfmt : lg.log_format = "json") :
    (∀ (level : String) (lc : Bool) (fn : String) (mfs : Int) (uc : Bool)
       (fail : Bool) (fs : FS),
      (loggerInit level lc true fn mfs uc "json" fail fs).fs.main ≠ fs.main →
      (loggerInit level lc true fn mfs uc "json" fail fs).fs.main =
        some (.jsonArr [])) ∧
    (∀ (o : EmitOracle) (fs : FS),
      (_rotate_file lg o fs).main ≠ fs.main →
      (_rotate_file lg o fs).main = none ∨
      ∃ recs, (_rotate_file lg o fs).main = some (.jsonArr recs)) ∧
    (∀ (o : EmitOracle) (t : Tm) (fs : FS) (level message : String),
      (_log lg o t fs level message).fs.main ≠ fs.main →
      (_log lg o t fs level message).fs.main = none ∨
      ∃ recs, (_log lg o t fs level message).fs.main =
        some (.jsonArr recs)) := by
  refine ⟨?_, ?_, ?_⟩
  · intro level lc fn mfs uc fail fs hne
    unfold loggerInit at hne ⊢
    cases fail <;> simp_all
  · intro o fs hne
    rcases rotate_main_cases lg o fs hfmt with h | h | h
    · exact absurd h hne
    · exact Or.inl h
    · exact Or.inr ⟨[], h⟩
  · intro o t fs level message hne
    unfold _log at hne ⊢
    rcases hl : LEVELS level with _ | rank <;> rw [hl] at hne
    · simp at hne
    · simp only at hne ⊢
      by_cases hge : geLevel rank lg.current_level = true
      · rw [if_pos hge] at hne ⊢
        by_cases hf : lg.log_to_file = true
        · rw [if_pos hf] at hne ⊢
          simp only at hne ⊢
          rcases append_main_cases o (_rotate_file lg o fs)
              ⟨_format_timestamp t, level, message,
               if lg.use_colors then COLORS level else none⟩ with h | h
          · rw [h] at hne ⊢
            rcases rotate_main_cases lg o fs hfmt with h2 | h2 | h2
            · exact absurd h2 hne
            · exact Or.inl h2
            · exact Or.inr ⟨[], h2⟩
          · exact Or.inr h
        · rw [if_neg hf] at hne; simp at hne
      · rw [if_neg hge] at hne; simp at hne

/-- Witness for C9: a concrete json-mode emit that changes the file
leaves a JSON array. -/
theorem C9_json_array_invariant_witness :
    (_log lgJson okOracle t0 fsEmptyArr "INFO" "hi").fs.main = none ∨
    ∃ recs, (_log lgJson okOracle t0 fsEmptyArr "INFO" "hi").fs.main =
      some (.jsonArr recs) :=
  (C9_json_array_invariant lgJson rfl).2.2 okOracle t0 fsEmptyArr "INFO" "hi"
    (by decide)



/-- C10: format-independent persistence. The file-persistence step of an
emit never consults `log_format` (the `_file_append` transformation does
not even take it as input); consequently two emitter states identical
except for the format produce identical results — filesystem, console
output, and raised exception — on any emit in which the rotation size
check does not fire (the format is consulted only by initialization and
by rotation's recreate step). -/
theorem C10_format_independent_persistence (lg : Logger) (f : String)
    (o : EmitOracle) (t : Tm) (fs : FS) (level message : String)
    (hrot : rotTriggers lg fs = false) :
    _log { lg with log_format := f } o t fs level message =
      _log lg o t fs level message := by
  rcases lg with ⟨cl, lc, lf, fn, mfs, uc, fmt⟩
  have h1 : _rotate_file ⟨cl, lc, lf, fn, mfs, uc, f⟩ o fs = fs :=
    rotate_noop _ o fs hrot
  have h2 : _rotate_file ⟨cl, lc, lf, fn, mfs, uc, fmt⟩ o fs = fs :=
    rotate_noop _ o fs hrot
  rcases hl : LEVELS level with _ | rank
  · simp [_log, hl]
  · simp [_log, hl, h1, h2, consoleLine]

/-- Witness for C10: text and json states agree on a concrete emit. -/
theorem C10_format_independent_persistence_witness :
    _log { lgJson with log_format := "text" } okOracle t0 fsCorrupt
        "INFO" "x" =
      _log lgJson okOracle t0 fsCorrupt "INFO" "x" :=
  C10_format_independent_persistence lgJson "text" okOracle t0 fsCorrupt
    "INFO" "x" (by decide)

/-- The file-append step raises nothing as long as the content it reads
is not `text` with a failing recovery write, and not valid-JSON-non-array
content. -/
theorem file_append_raised (o : EmitOracle) (fs : FS) (entry : LogRec)
    (hrec : ∀ lines, fs.main = some (.text lines) →
      o.recoveryWriteFail = false)
    (hobj : ∀ raw, fs.main ≠ some (.jsonOther raw)) :
    (_file_append o fs entry).2.2 = none := by
  unfold _file_append
  rcases hm : fs.main with _ | c
  · simp
  · rcases c with recs | raw | lines
    · simp only [ujsonLoad]; split_ifs <;> simp
    · exact absurd hm (hobj raw)
    · have := hrec lines hm
      simp only [ujsonLoad]
      split_ifs <;> simp_all

/-- C6 (amended): an emit raises nothing to its caller — every I/O
failure is caught where it occurs — except in the two uncovered paths:
the corrupt-content recovery rewrite failing with an I/O error, and the
file parsing as valid JSON that is not an array; and the console line,
when the console sink is enabled and the threshold passes, is printed
regardless of any file-sink failure. -/
theorem C6_amended_no_raise (lg : Logger) (o : EmitOracle) (t : Tm)
    (fs : FS) (level message : String) (rank : Int)
    (hl : LEVELS level = some rank)
    (hrec : ∀ lines, (_rotate_file lg o fs).main = some (.text lines) →
      o.recoveryWriteFail = false)
    (hobj : ∀ raw, (_rotate_file lg o fs).main ≠ some (.jsonOther raw)) :
    (_log lg o t fs level message).raised = none ∧
    (lg.log_to_console = true → geLevel rank lg.current_level = true →
      consoleLine lg (_format_timestamp t) level message ∈
        (_log lg o t fs level message).console) := by
  constructor
  · cases hge : geLevel rank lg.current_level
    · simp [_log, hl, hge]
    · cases hf : lg.log_to_file
      · simp [_log, hl, hge, hf]
      · simp only [_log, hl, hge, hf, if_true]
        exact file_append_raised o _ _ hrec hobj
  · intro hc hge
    obtain ⟨rest, hform, _⟩ := log_console_form lg o t fs level message hl
    rw [hform]
    simp [hc, hge]

/-- Witness for C6 (amended): a failing array write still raises nothing
and does not suppress anything. -/
theorem C6_amended_no_raise_witness :
    (_log lgJson { okOracle with writeFail := true } t0 fsEmptyArr
      "INFO" "x").raised = none := by
  have hr : _rotate_file lgJson { okOracle with writeFail := true }
      fsEmptyArr = fsEmptyArr := by decide
  refine (C6_amended_no_raise lgJson _ t0 fsEmptyArr "INFO" "x" 1 rfl
    ?_ ?_).1
  · intro lines h
    rw [hr] at h
    simp [fsEmptyArr] at h
  · intro raw h
    rw [hr] at h
    simp [fsEmptyArr] at h

/-- C6 counterexample: with the log file holding invalid JSON and the
recovery rewrite failing with an I/O error, the emit raises `OSError` to
its caller (the rewrite inside the `except ValueError` handler is not
itself guarded). -/
theorem C6_counterexample :
    (_log lgJson oRecFail t0 fsCorrupt "INFO" "x").raised = some "OSError" ∧
    (_log lgJson oRecFail t0 fsCorrupt "INFO" "x").raised ≠ none := by
  constructor <;> decide

/-- C7 (amended): for `log_format = "json"`, an I/O failure while
creating/truncating the log file during construction is non-fatal — the
error notice is printed and construction completes with all configuration
fields assigned (and on success the file holds an empty array); for any
other format the same failure propagates `OSError` out of the
constructor. -/
theorem C7_amended_json_nonfatal (level : String) (lc : Bool) (fn : String)
    (mfs : Int) (uc : Bool) (fail : Bool) (fs : FS) :
    (loggerInit level lc true fn mfs uc "json" fail fs).raised = none ∧
    (fail = true →
      (loggerInit level lc true fn mfs uc "json" fail fs).console =
        [initErrNotice]) ∧
    (loggerInit level lc true fn mfs uc "json" fail fs).logger =
      ⟨.fin (LEVELS_get level), lc, true, fn, mfs, uc, "json"⟩ ∧
    (fail = false →
      (loggerInit level lc true fn mfs uc "json" fail fs).fs.main =
        some (.jsonArr [])) ∧
    (loggerInit level lc true fn mfs uc "text" true fs).raised =
      some "OSError" := by
  cases fail <;> simp [loggerInit]

/-- Witness for C7 (amended): a concrete failing json-mode construction
completes and prints the notice. -/
theorem C7_amended_json_nonfatal_witness :
    (loggerInit "INFO" true true "log.txt" 0 true "json" true
      ⟨none, none⟩).raised = none ∧
    (loggerInit "INFO" true true "log.txt" 0 true "json" true
      ⟨none, none⟩).console = [initErrNotice] :=
  ⟨(C7_amended_json_nonfatal "INFO" true "log.txt" 0 true true
      ⟨none, none⟩).1,
   (C7_amended_json_nonfatal "INFO" true "log.txt" 0 true true
      ⟨none, none⟩).2.1 rfl⟩

/-- C7 counterexample: in text mode the same construction-time I/O
failure propagates `OSError` — construction does not complete, contrary
to the claim's "for both persistence formats". -/
theorem C7_counterexample :
    (loggerInit "INFO" true true "log.txt" 0 true "text" true
      ⟨none, none⟩).raised = some "OSError" := by
  decide

/-- C3: evaluation at the failing input. A fresh text-mode initialization
writes the "Logger initialized." marker line, but the very next
above-threshold emit reads the file as JSON, hits `ValueError`, and
rewrites the whole file as a single-element JSON array: the marker line
is discarded and the persisted file is not an appended-to sequence of
human-readable lines. -/
theorem C3_text_marker_destroyed :
    (loggerInit "INFO" false true "log.txt" 0 true "text" false
        ⟨none, none⟩).logger = lgText ∧
    (loggerInit "INFO" false true "log.txt" 0 true "text" false
        ⟨none, none⟩).fs =
      ⟨some (.text ["Logger initialized."]), none⟩ ∧
    (_log lgText okOracle t0 ⟨some (.text ["Logger initialized."]), none⟩
        "INFO" "hello").fs.main =
      some (.jsonArr [⟨"2026-01-02 03:04:05", "INFO", "hello",
                       some "\x1b[92m"⟩]) := by
  refine ⟨by decide, by decide, by decide⟩


end Micrologger
